import Mathlib

/-!
Verification development for the voice-translation core of the
trip-adviser-webapp repository (src/models.py, src/validators.py,
src/translation_service.py).

The Python source is shallowly embedded below. Python strings are Lean
`String`; Python `str.strip` / `str.lower` / `str.split()` are re-implemented
structurally over `List Char` so that concrete runs reduce in the kernel
(Python `lower`/`strip` are Unicode-aware, the embedding covers the ASCII
letters and standard whitespace actually exercised by the program). Python
floats are embedded as exact rationals: the configuration thresholds 3.0,
0.3, 0.7 and the ratio arithmetic of the hallucination detector are modelled
in `ℚ`, which agrees with the IEEE-double computation of the source at every
comparison appearing in the claims. Remote OpenAI calls are modelled by an
oracle giving the outcome of each attempt, and the `tenacity` retry
decorators (`stop_after_attempt(3)`,
`retry_if_exception_type((OpenAIError, ConnectionError))`, no `reraise`) by
the explicit loop `retryCall`: a matching exception consumes an attempt, a
non-matching exception is re-raised at once, and exhausting the attempts
raises `tenacity.RetryError` wrapping the last exception.
-/

/-- Python `str.lower` (ASCII case folding), as used by the source. -/
def pyLower (s : String) : String :=
  String.mk (s.data.map Char.toLower)

/-- Python `str.strip()` with no arguments: remove leading and trailing
whitespace. -/
def pyStrip (s : String) : String :=
  String.mk (((s.data.dropWhile Char.isWhitespace).reverse.dropWhile
    Char.isWhitespace).reverse)

/-- Token accumulator for `pySplitWs`; `cur` holds the current word reversed. -/
def pySplitWsAux : List Char → List Char → List String
  | cur, [] => if cur.isEmpty then [] else [String.mk cur.reverse]
  | cur, c :: rest =>
    if c.isWhitespace then
      if cur.isEmpty then pySplitWsAux [] rest
      else String.mk cur.reverse :: pySplitWsAux [] rest
    else pySplitWsAux (c :: cur) rest

/-- Python `str.split()` with no arguments: split on runs of whitespace and
drop empty pieces. -/
def pySplitWs (s : String) : List String :=
  pySplitWsAux [] s.data

/-- Whether `needle` occurs contiguously in `hay`: Python `needle in hay`
on strings, at character level. -/
def listContainsSub (needle : List Char) : List Char → Bool
  | [] => needle.isEmpty
  | c :: rest => needle.isPrefixOf (c :: rest) || listContainsSub needle rest

/-- Python substring test `needle in hay`. -/
def strContains (hay needle : String) : Bool :=
  listContainsSub needle.data hay.data

/-- Python `' '.join(words)`. -/
def joinWords : List String → String
  | [] => ""
  | [w] => w
  | w :: rest => w ++ " " ++ joinWords rest

/-- Python `len(set(l))` for a list of strings: the number of distinct
elements. -/
def numDistinct : List String → Nat
  | [] => 0
  | x :: xs => if xs.contains x then numDistinct xs else numDistinct xs + 1

/-- Python `os.path.splitext(p)[1]`: the extension of the final path
component, beginning at its last dot, empty when the component has no dot
or only leading dots before it. -/
def splitextExt (p : String) : String :=
  let base := (p.data.reverse.takeWhile (fun c => c != '/')).reverse
  let r := base.reverse
  if r.any (fun c => c == '.') then
    let revExt := r.takeWhile (fun c => c != '.')
    let revRoot := (r.dropWhile (fun c => c != '.')).tail
    if revRoot.any (fun c => c != '.') then String.mk ('.' :: revExt.reverse)
    else ""
  else ""

/-- Python f-string rendering of an `Optional[str]`: `None` renders as the
literal text `None`. -/
def optStr : Option String → String
  | some s => s
  | none => "None"

/-- Rendering of a rational in a message; stands in for Python `{x:.2f}`
float formatting, whose exact digits no claim depends on. -/
def fmtRat (q : ℚ) : String :=
  toString q.num ++ "/" ++ toString q.den

/-- models.py `LanguageCode`: the fixed enumerated set of supported
languages. -/
inductive LanguageCode
  | english
  | italian
  | spanish
  | french
  | german
  deriving DecidableEq, Repr

/-- models.py `LanguageCode.code`: the 2-letter ISO code of a member. -/
def LanguageCode.code : LanguageCode → String
  | .english => "en"
  | .italian => "it"
  | .spanish => "es"
  | .french => "fr"
  | .german => "de"

/-- models.py `LanguageCode.name`: the display name of a member. -/
def LanguageCode.name : LanguageCode → String
  | .english => "English"
  | .italian => "Italian"
  | .spanish => "Spanish"
  | .french => "French"
  | .german => "German"

/-- Iteration order of the `LanguageCode` enum members. -/
def LanguageCode.all : List LanguageCode :=
  [.english, .italian, .spanish, .french, .german]

/-- models.py `LanguageCode.from_code`: first member whose ISO code equals
the lowercased input, else `None`. -/
def LanguageCode.from_code (code : String) : Option LanguageCode :=
  LanguageCode.all.find? (fun lang => lang.code == pyLower code)

/-- Modelled from the spec: `LanguageCode.from_name_or_code` is invoked by
the pipeline (translation_service.py, language normalization after
transcription) and exercised directly by the test suite, but its definition
is not among the provided source files. Spec section 4.2: case-insensitive
match of the raw label against the ISO codes and display names of the fixed
set; total; `none` for anything unsupported. -/
def LanguageCode.from_name_or_code (label : String) : Option LanguageCode :=
  LanguageCode.all.find? (fun lang =>
    lang.code == pyLower label || pyLower lang.name == pyLower label)

/-- models.py `LanguageCode.get_supported_codes`: the ISO codes of all
members (a Python set, embedded as the list of codes in member order;
only membership is ever consulted). -/
def LanguageCode.get_supported_codes : List String :=
  LanguageCode.all.map LanguageCode.code

/-- models.py `TranslationConfig` with its default values.
`MAX_LENGTH_RATIO = 3.0` and `MIN_LENGTH_RATIO = 0.3` are embedded as the
exact rationals `3` and `3/10` in the fields `max_length_ratio` and
`min_length_ratio` (names adjusted). -/
structure TranslationConfig where
  MAX_FILE_SIZE_MB : Nat := 25
  ALLOWED_FORMATS : List String :=
    ["audio/mpeg", "audio/mp3", "audio/wav", "audio/m4a", "audio/webm",
     "audio/ogg"]
  MAX_DURATION_SECONDS : Nat := 600
  MIN_CONFIDENCE_SCORE : ℚ := 7/10
  MIN_TEXT_LENGTH : Nat := 3
  MAX_TEXT_LENGTH : Nat := 4096
  max_length_ratio : ℚ := 3
  min_length_ratio : ℚ := 3/10
  HALLUCINATION_KEYWORDS : List String :=
    ["[inaudible]", "[music]", "[noise]", "subscribe", "like and subscribe",
     "thank you for watching", "please subscribe"]
  MAX_RETRIES : Nat := 3
  RETRY_DELAY : Nat := 1
  deriving Repr

/-- models.py `TranslationResult`: the single result entity, with the
dataclass defaults. Audio byte strings are embedded as `List Nat`. -/
structure TranslationResult where
  success : Bool
  audio_bytes : Option (List Nat) := none
  original_text : Option String := none
  translated_text : Option String := none
  detected_language : Option String := none
  target_language : Option String := none
  confidence_score : Option ℚ := none
  error_message : Option String := none
  requires_retry : Bool := false
  hallucination_detected : Bool := false
  deriving DecidableEq, Repr

/-- validators.py `TranslationValidator.validate_text_length`: reject empty
text or trimmed length below the minimum, then raw length above the
maximum. -/
def TranslationValidator.validate_text_length (cfg : TranslationConfig)
    (text : String) : Bool × Option String :=
  if text = "" ∨ (pyStrip text).length < cfg.MIN_TEXT_LENGTH then
    (false, some "Text too short or empty")
  else if text.length > cfg.MAX_TEXT_LENGTH then
    (false, some ("Text exceeds maximum length of " ++
      toString cfg.MAX_TEXT_LENGTH ++ " characters"))
  else
    (true, none)

/-- validators.py `check_hallucination`, check 1: length-ratio validation,
performed only when the stripped original is non-empty. The Python float
ratio `translated_len / original_len` is the exact rational here. -/
def ratioCheck (cfg : TranslationConfig) (original_text translated_text :
    String) : Option String :=
  if 0 < (pyStrip original_text).length then
    if (((pyStrip translated_text).length : ℚ) /
        ((pyStrip original_text).length : ℚ)) > cfg.max_length_ratio then
      some ("Translation suspiciously long (ratio: " ++
        fmtRat (((pyStrip translated_text).length : ℚ) /
          ((pyStrip original_text).length : ℚ)) ++ ")")
    else if (((pyStrip translated_text).length : ℚ) /
        ((pyStrip original_text).length : ℚ)) < cfg.min_length_ratio then
      some ("Translation suspiciously short (ratio: " ++
        fmtRat (((pyStrip translated_text).length : ℚ) /
          ((pyStrip original_text).length : ℚ)) ++ ")")
    else none
  else none

/-- validators.py `check_hallucination`, check 2: case-insensitive substring
search of the translated text against the keyword blocklist. The Python
`set` iteration picks an unspecified first hit; the embedding scans in the
declaration order of the defaults (which keyword is named may differ, whether
one is found may not). -/
def keywordCheck (cfg : TranslationConfig) (translated_text : String) :
    Option String :=
  (cfg.HALLUCINATION_KEYWORDS.find? (fun keyword =>
    strContains (pyLower translated_text) (pyLower keyword))).map
    (fun keyword => "Hallucination keyword detected: '" ++ keyword ++ "'")

/-- validators.py `check_hallucination`, check 3: original longer than 20
stripped characters and equal to the translation after strip and lower. -/
def identicalCheck (original_text translated_text : String) :
    Option String :=
  if 20 < (pyStrip original_text).length ∧
      pyLower (pyStrip original_text) = pyLower (pyStrip translated_text)
  then some "Translation identical to original"
  else none

/-- The overlapping 3-token windows of a token list:
`[' '.join(words[i:i+3]) for i in range(len(words)-2)]`. -/
def trigramsOf (words : List String) : List String :=
  (List.range (words.length - 2)).map (fun i => joinWords ((words.drop i).take 3))

/-- validators.py `check_hallucination`, check 4: more than 5
whitespace-delimited tokens and fewer distinct windows than 0.7 of the
total. `len(unique) < len(trigrams) * 0.7` is the exact rational comparison
`10 * unique < 7 * total` (the IEEE-double product agrees at every integer
point). -/
def repetitionCheck (translated_text : String) : Option String :=
  if 5 < (pySplitWs translated_text).length then
    if 10 * numDistinct (trigramsOf (pySplitWs translated_text)) <
        7 * (trigramsOf (pySplitWs translated_text)).length then
      some "Excessive repetition detected"
    else none
  else none

/-- validators.py `TranslationValidator.check_hallucination`: the four
checks in order, first match wins. The `detected_language` argument is
accepted and ignored, as in the source. -/
def TranslationValidator.check_hallucination (cfg : TranslationConfig)
    (original_text translated_text detected_language : String) :
    Bool × Option String :=
  match ratioCheck cfg original_text translated_text with
  | some reason => (true, some reason)
  | none =>
  match keywordCheck cfg translated_text with
  | some reason => (true, some reason)
  | none =>
  match identicalCheck original_text translated_text with
  | some reason => (true, some reason)
  | none =>
  match repetitionCheck translated_text with
  | some reason => (true, some reason)
  | none => (false, none)

/-- validators.py `TranslationValidator.validate_language_detection`:
membership of the detected code in the supported set, then the optional
confidence floor. -/
def TranslationValidator.validate_language_detection
    (cfg : TranslationConfig) (detected_language : String)
    (confidence : Option ℚ) : Bool × Option String :=
  if ¬ (LanguageCode.get_supported_codes.contains detected_language) then
    (false, some ("Unsupported language detected: " ++ detected_language))
  else
    match confidence with
    | some c =>
      if c < cfg.MIN_CONFIDENCE_SCORE then
        (false, some ("Low confidence: " ++ fmtRat c))
      else (true, none)
    | none => (true, none)

/-- werkzeug `FileStorage` as consumed by the validator and pipeline: the
filename (empty models an absent or falsy file), declared content type and
raw bytes. -/
structure AudioFile where
  filename : String
  content_type : String
  content : List Nat
  deriving DecidableEq, Repr

/-- validators.py `AudioFileValidator.validate`: presence, declared content
type, size bounds, then extension, short-circuiting on the first failure.
The size message renders `{size/1024/1024:.2f}` through `fmtRat`. -/
def AudioFileValidator.validate (cfg : TranslationConfig) (f : AudioFile) :
    Bool × Option String :=
  if f.filename = "" then
    (false, some "No audio file provided")
  else if ¬ (cfg.ALLOWED_FORMATS.contains f.content_type) then
    (false, some ("Unsupported format: " ++ f.content_type))
  else if f.content.length > cfg.MAX_FILE_SIZE_MB * 1024 * 1024 then
    (false, some ("File too large: " ++
      fmtRat ((f.content.length : ℚ) / (1024 * 1024)) ++ "MB"))
  else if f.content.length = 0 then
    (false, some "Audio file is empty")
  else if ¬ ([".mp3", ".wav", ".m4a", ".webm", ".ogg", ".flac"].contains
      (pyLower (splitextExt f.filename))) then
    (false, some ("Invalid extension: " ++ pyLower (splitextExt f.filename)))
  else
    (true, none)

/-- The Python exceptions that can cross the remote-call boundary.
`openAIErr` covers every subclass of `openai.OpenAIError` (its `OpenAIKind`
names the subclass), `connectionErr` the builtin `ConnectionError`,
`retryErr` is `tenacity.RetryError` wrapping the last attempt, and
`otherErr` any other exception. -/
inductive OpenAIKind
  | apiConnection
  | rateLimit
  | internalServer
  | authentication
  | badRequest
  | generic
  deriving DecidableEq, Repr

inductive PyError
  | openAIErr (kind : OpenAIKind) (msg : String)
  | connectionErr (msg : String)
  | retryErr (last : PyError)
  | otherErr (msg : String)
  deriving DecidableEq, Repr

/-- Which exceptions the decorators
`retry_if_exception_type((OpenAIError, ConnectionError))` consume an
attempt on. -/
def retryableErr : PyError → Bool
  | .openAIErr _ _ => true
  | .connectionErr _ => true
  | .retryErr _ => false
  | .otherErr _ => false

/-- One execution of the tenacity retry loop. The oracle gives the outcome
of the wrapped body on each successive attempt (0-based); `fuel` counts the
attempts still allowed, starting from `stop_after_attempt`. A matching
exception on the final attempt surfaces as `RetryError` wrapping it
(`reraise` is not set); a non-matching exception is re-raised at once. -/
def retryAux {α : Type} (oracle : Nat → Except PyError α) :
    Nat → Nat → Except PyError α
  | _, 0 => Except.error (PyError.otherErr "no attempts allowed")
  | i, 1 =>
    match oracle i with
    | .ok v => .ok v
    | .error e =>
      if retryableErr e then .error (.retryErr e) else .error e
  | i, fuel + 2 =>
    match oracle i with
    | .ok v => .ok v
    | .error e =>
      if retryableErr e then retryAux oracle (i + 1) (fuel + 1)
      else .error e

/-- The retry wrapper shared by `_transcribe_with_retry`,
`_translate_with_retry` and `_text_to_speech_with_retry`:
`stop_after_attempt(3)` is hard-coded at each decorator. -/
def retryCall {α : Type} (oracle : Nat → Except PyError α) :
    Except PyError α :=
  retryAux oracle 0 3

/-- The transcription object returned by the Whisper call: `.text` and
`.language` are the fields the pipeline reads. -/
structure TranscriptionObj where
  text : String
  language : String
  deriving DecidableEq, Repr

/-- The behaviour of the three remote operations for one pipeline
invocation: the outcome of each successive underlying attempt of
transcribe, translate (its body already strips the model output) and
synthesize. -/
structure RemoteBehavior where
  transcribe : Nat → Except PyError TranscriptionObj
  translate : Nat → Except PyError String
  synthesize : Nat → Except PyError (List Nat)

/-- translation_service.py `TranslationService.language_pairs`: the static
bidirectional English/Italian table. -/
def language_pairs : List (String × LanguageCode) :=
  [(LanguageCode.english.code, LanguageCode.italian),
   (LanguageCode.italian.code, LanguageCode.english)]

/-- translation_service.py `get_target_language`: table lookup with the
documented default to English on a miss. -/
def get_target_language (detected_code : String) : LanguageCode :=
  match language_pairs.find? (fun p => p.1 == detected_code) with
  | some p => p.2
  | none => LanguageCode.english

/-- The language normalization inlined in `process_translation`: normalize
the raw Whisper label to an ISO code, defaulting to English when
unrecognized. -/
def normalize_detected (label : String) : String :=
  match LanguageCode.from_name_or_code label with
  | some lang => lang.code
  | none => LanguageCode.english.code

/-- The `except OpenAIError` / `except Exception` clauses at the bottom of
`process_translation`, applied to an exception escaping the try block. -/
def pipelineErrResult : PyError → TranslationResult
  | .openAIErr _ msg =>
    { success := false, error_message := some ("Service error: " ++ msg) }
  | _ =>
    { success := false,
      error_message := some "Unexpected error. Please try again." }

/-- translation_service.py `TranslationService.process_translation`: the
whole pipeline, for one configuration, one remote behaviour and one
uploaded file. -/
def process_translation (cfg : TranslationConfig) (b : RemoteBehavior)
    (audio_file : AudioFile) : TranslationResult :=
  match AudioFileValidator.validate cfg audio_file with
  | (false, error_msg) => { success := false, error_message := error_msg }
  | (true, _) =>
  match retryCall b.transcribe with
  | .error e => pipelineErrResult e
  | .ok transcription =>
  match TranslationValidator.validate_text_length cfg
      (pyStrip transcription.text) with
  | (false, error_msg) =>
    { success := false,
      error_message := some (optStr error_msg ++ ". Please speak clearly."),
      detected_language := some (normalize_detected transcription.language),
      original_text := some (pyStrip transcription.text),
      requires_retry := true }
  | (true, _) =>
  match TranslationValidator.validate_language_detection cfg
      (normalize_detected transcription.language) none with
  | (false, error_msg) =>
    { success := false,
      error_message := some (optStr error_msg ++
        ". Supported: English, Italian."),
      detected_language := some (normalize_detected transcription.language),
      original_text := some (pyStrip transcription.text),
      requires_retry := true }
  | (true, _) =>
  match retryCall b.translate with
  | .error e => pipelineErrResult e
  | .ok translated_text =>
  match TranslationValidator.check_hallucination cfg
      (pyStrip transcription.text) translated_text
      (normalize_detected transcription.language) with
  | (true, reason) =>
    { success := false,
      error_message := some ("Quality issue: " ++ optStr reason ++
        ". Try again."),
      original_text := some (pyStrip transcription.text),
      translated_text := some translated_text,
      detected_language := some (normalize_detected transcription.language),
      target_language :=
        some (get_target_language (normalize_detected
          transcription.language)).name,
      requires_retry := true,
      hallucination_detected := true }
  | (false, _) =>
  match retryCall b.synthesize with
  | .error e => pipelineErrResult e
  | .ok audio_bytes =>
    { success := true,
      audio_bytes := some audio_bytes,
      original_text := some (pyStrip transcription.text),
      translated_text := some translated_text,
      detected_language := some (normalize_detected transcription.language),
      target_language :=
        some (get_target_language (normalize_detected
          transcription.language)).name }

/-! Helper lemmas. -/

lemma length_dropWhile_le {α : Type} (p : α → Bool) (l : List α) :
    (l.dropWhile p).length ≤ l.length := by
  induction l with
  | nil => simp
  | cons a t ih =>
    rw [List.dropWhile_cons]
    split
    · exact Nat.le_succ_of_le ih
    · exact Nat.le_refl _

lemma pyStrip_length_le (s : String) : (pyStrip s).length ≤ s.length := by
  show (pyStrip s).data.length ≤ s.data.length
  unfold pyStrip
  simp only [List.length_reverse]
  exact le_trans (le_trans (length_dropWhile_le _ _)
    (le_of_eq (List.length_reverse _))) (length_dropWhile_le _ _)

lemma str_concat_ne_concat (p a q b : String) (n : Nat)
    (hp : n ≤ p.data.length) (hq : n ≤ q.data.length)
    (h : p.data.take n ≠ q.data.take n) : p ++ a ≠ q ++ b := by
  intro he
  apply h
  have hd := congrArg String.data he
  rw [String.data_append, String.data_append] at hd
  have ht := congrArg (List.take n) hd
  rwa [List.take_append_of_le_length hp,
    List.take_append_of_le_length hq] at ht

lemma pipelineErrResult_success (e : PyError) :
    (pipelineErrResult e).success = false := by
  cases e <;> rfl

lemma pipelineErrResult_audio (e : PyError) :
    (pipelineErrResult e).audio_bytes = none := by
  cases e <;> rfl

lemma normalize_detected_mem (label : String) :
    LanguageCode.get_supported_codes.contains (normalize_detected label) =
      true := by
  unfold normalize_detected
  rcases h : LanguageCode.from_name_or_code label with _ | lang
  · decide
  · cases lang <;> decide

lemma vld_normalized (cfg : TranslationConfig) (label : String) :
    TranslationValidator.validate_language_detection cfg
      (normalize_detected label) none = (true, none) := by
  unfold TranslationValidator.validate_language_detection
  rw [if_neg]
  intro hc
  exact hc (normalize_detected_mem label)

/-- C6: the target-language pairing maps "en" to Italian, "it" to English,
and every other string to English. -/
theorem claim_C6 :
    get_target_language "en" = LanguageCode.italian ∧
    get_target_language "it" = LanguageCode.english ∧
    ∀ s : String, s ≠ "en" → s ≠ "it" →
      get_target_language s = LanguageCode.english := by
  refine ⟨rfl, rfl, ?_⟩
  intro s h1 h2
  unfold get_target_language language_pairs
  rw [List.find?_cons_of_neg, List.find?_cons_of_neg, List.find?_nil]
  · simp only [LanguageCode.code, beq_iff_eq]
    exact fun hc => h2 hc.symm
  · simp only [LanguageCode.code, beq_iff_eq]
    exact fun hc => h1 hc.symm

/-- Witness for C6 at the unrecognized code "es". -/
theorem claim_C6_witness : get_target_language "es" = LanguageCode.english :=
  claim_C6.2.2 "es" (by decide) (by decide)

/-- C3: normalization of language labels, as used by the pipeline
(`from_name_or_code`, modelled from the spec since its definition is not
among the source files): for every supported language, any string whose
lowercase form is its ISO code or its lowercased display name normalizes to
that language, and any string matching no code and no display name
normalizes to none. -/
theorem claim_C3 :
    (∀ (lang : LanguageCode) (s : String),
      pyLower s = lang.code ∨ pyLower s = pyLower lang.name →
      LanguageCode.from_name_or_code s = some lang) ∧
    (∀ s : String,
      (∀ lang : LanguageCode,
        pyLower s ≠ lang.code ∧ pyLower s ≠ pyLower lang.name) →
      LanguageCode.from_name_or_code s = none) := by
  constructor
  · intro lang s h
    unfold LanguageCode.from_name_or_code
    cases lang <;>
      simp only [LanguageCode.code, LanguageCode.name,
        show pyLower "English" = "english" from rfl,
        show pyLower "Italian" = "italian" from rfl,
        show pyLower "Spanish" = "spanish" from rfl,
        show pyLower "French" = "french" from rfl,
        show pyLower "German" = "german" from rfl] at h <;>
      rcases h with h | h <;> simp only [h] <;> decide
  · intro s h
    unfold LanguageCode.from_name_or_code
    rw [List.find?_eq_none]
    intro lang hlang
    simp only [Bool.or_eq_true, beq_iff_eq, not_or]
    refine ⟨fun hc => (h lang).1 ?_, fun hn => (h lang).2 ?_⟩
    · exact hc.symm
    · exact hn.symm

/-- Witness for C3: a mixed-case display name normalizes, an unsupported
label does not. -/
theorem claim_C3_witness :
    LanguageCode.from_name_or_code "EnGlIsH" = some LanguageCode.english ∧
    LanguageCode.from_name_or_code "russian" = none :=
  ⟨claim_C3.1 LanguageCode.english "EnGlIsH" (Or.inr (by decide)),
   claim_C3.2 "russian" (by intro lang; cases lang <;> exact ⟨by decide, by decide⟩)⟩

/-! Stepping equations for the retry loop. -/

lemma retryAux_step2 {α : Type} (o : Nat → Except PyError α) (i fuel : Nat) :
    retryAux o i (fuel + 2) =
      match o i with
      | .ok v => .ok v
      | .error e =>
        if retryableErr e then retryAux o (i + 1) (fuel + 1)
        else .error e := rfl

lemma retryAux_step1 {α : Type} (o : Nat → Except PyError α) (i : Nat) :
    retryAux o i 1 =
      match o i with
      | .ok v => .ok v
      | .error e =>
        if retryableErr e then .error (.retryErr e) else .error e := rfl

lemma retryCall_exhaust {α : Type} (o : Nat → Except PyError α)
    (e0 e1 e2 : PyError)
    (h0 : o 0 = .error e0) (r0 : retryableErr e0 = true)
    (h1 : o 1 = .error e1) (r1 : retryableErr e1 = true)
    (h2 : o 2 = .error e2) (r2 : retryableErr e2 = true) :
    retryCall o = .error (.retryErr e2) := by
  unfold retryCall
  rw [show (3 : Nat) = 1 + 2 from rfl, retryAux_step2, h0]
  dsimp only
  rw [if_pos r0, retryAux_step2, h1]
  dsimp only
  rw [if_pos r1, retryAux_step1, h2]
  dsimp only
  rw [if_pos r2]

/-- C5 counterexample: an authentication error is an `OpenAIError`, so the
retry wrapper retries it instead of propagating it on first occurrence; a
first-attempt authentication failure followed by a success yields the
success on the second attempt. -/
theorem claim_C5_cex :
    retryCall (fun i => if i = 0 then
        Except.error (PyError.openAIErr OpenAIKind.authentication
          "invalid api key")
      else Except.ok (7 : Nat)) = Except.ok 7 ∧
    (Except.ok 7 : Except PyError Nat) ≠
      Except.error (PyError.openAIErr OpenAIKind.authentication
        "invalid api key") := by
  exact ⟨rfl, fun h => Except.noConfusion h⟩

/-- C5 amended: the retry wrapper retries exactly the errors that are
instances of `OpenAIError` or `ConnectionError` — including non-transient
`OpenAIError` subclasses such as authentication and malformed-request
errors — and propagates every other exception on its first occurrence
without retry. -/
theorem claim_C5_amended :
    (∀ (k : OpenAIKind) (m : String),
      retryableErr (PyError.openAIErr k m) = true) ∧
    (∀ m : String, retryableErr (PyError.connectionErr m) = true) ∧
    (∀ m : String, retryableErr (PyError.otherErr m) = false) ∧
    (∀ {α : Type} (o : Nat → Except PyError α) (e : PyError),
      o 0 = Except.error e → retryableErr e = false →
      retryCall o = Except.error e) ∧
    (∀ {α : Type} (o : Nat → Except PyError α) (e : PyError) (v : α),
      o 0 = Except.error e → retryableErr e = true → o 1 = Except.ok v →
      retryCall o = Except.ok v) := by
  refine ⟨fun _ _ => rfl, fun _ => rfl, fun _ => rfl, ?_, ?_⟩
  · intro α o e h0 hr
    unfold retryCall
    rw [show (3 : Nat) = 1 + 2 from rfl, retryAux_step2, h0]
    dsimp only
    rw [if_neg (show ¬ retryableErr e = true from by simp [hr])]
  · intro α o e v h0 hr h1
    unfold retryCall
    rw [show (3 : Nat) = 1 + 2 from rfl, retryAux_step2, h0]
    dsimp only
    rw [if_pos hr, retryAux_step2, h1]

/-- Witness for C5 amended: a non-matching error propagates at once; a
retryable (authentication) error is retried and the second attempt is
returned. -/
theorem claim_C5_amended_witness :
    retryCall (fun i => if i = 0 then
        Except.error (PyError.otherErr "value error")
      else Except.ok (11 : Nat)) =
      Except.error (PyError.otherErr "value error") ∧
    retryCall (fun i => if i = 0 then
        Except.error (PyError.openAIErr OpenAIKind.badRequest "bad request")
      else Except.ok (11 : Nat)) = Except.ok 11 :=
  ⟨claim_C5_amended.2.2.2.1 _ _ rfl rfl,
   claim_C5_amended.2.2.2.2 _ _ 11 rfl rfl rfl⟩

/-- C4 counterexample: when every transcription attempt fails with an
`OpenAIError`, tenacity raises `RetryError`, which the `except OpenAIError`
clause does not catch; the pipeline therefore returns the generic
unclassified failure, not a "Service error" outcome carrying the last
error. -/
theorem claim_C4_cex :
    process_translation {}
      ⟨fun _ => Except.error (PyError.openAIErr OpenAIKind.rateLimit
          "rate limit hit"),
        fun _ => Except.ok "", fun _ => Except.ok []⟩
      ⟨"clip.mp3", "audio/mpeg", [0]⟩ =
      { success := false,
        error_message := some "Unexpected error. Please try again." } ∧
    (some "Unexpected error. Please try again." ≠
      some ("Service error: " ++ "rate limit hit")) := by
  exact ⟨rfl, by decide⟩

/-- C4 amended: for each of the three remote calls, when every attempt of
the retry budget fails with a retryable error, the pipeline returns a
failure with `requires_retry = false` and the opaque generic message
"Unexpected error. Please try again." — the last error is wrapped in
`tenacity.RetryError` and reaches the generic handler, not the
`except OpenAIError` branch, so no ServiceError outcome is produced. -/
theorem claim_C4_amended :
    (∀ (cfg : TranslationConfig) (b : RemoteBehavior) (f : AudioFile)
      (e0 e1 e2 : PyError),
      (AudioFileValidator.validate cfg f).1 = true →
      b.transcribe 0 = Except.error e0 → retryableErr e0 = true →
      b.transcribe 1 = Except.error e1 → retryableErr e1 = true →
      b.transcribe 2 = Except.error e2 → retryableErr e2 = true →
      process_translation cfg b f =
        { success := false,
          error_message := some "Unexpected error. Please try again." }) ∧
    (∀ (cfg : TranslationConfig) (b : RemoteBehavior) (f : AudioFile)
      (tr : TranscriptionObj) (e0 e1 e2 : PyError),
      (AudioFileValidator.validate cfg f).1 = true →
      retryCall b.transcribe = Except.ok tr →
      (TranslationValidator.validate_text_length cfg
        (pyStrip tr.text)).1 = true →
      b.translate 0 = Except.error e0 → retryableErr e0 = true →
      b.translate 1 = Except.error e1 → retryableErr e1 = true →
      b.translate 2 = Except.error e2 → retryableErr e2 = true →
      process_translation cfg b f =
        { success := false,
          error_message := some "Unexpected error. Please try again." }) ∧
    (∀ (cfg : TranslationConfig) (b : RemoteBehavior) (f : AudioFile)
      (tr : TranscriptionObj) (t : String) (e0 e1 e2 : PyError),
      (AudioFileValidator.validate cfg f).1 = true →
      retryCall b.transcribe = Except.ok tr →
      (TranslationValidator.validate_text_length cfg
        (pyStrip tr.text)).1 = true →
      retryCall b.translate = Except.ok t →
      (TranslationValidator.check_hallucination cfg (pyStrip tr.text) t
        (normalize_detected tr.language)).1 = false →
      b.synthesize 0 = Except.error e0 → retryableErr e0 = true →
      b.synthesize 1 = Except.error e1 → retryableErr e1 = true →
      b.synthesize 2 = Except.error e2 → retryableErr e2 = true →
      process_translation cfg b f =
        { success := false,
          error_message := some "Unexpected error. Please try again." }) := by
  refine ⟨?_, ?_, ?_⟩
  · intro cfg b f e0 e1 e2 hv h0 r0 h1 r1 h2 r2
    unfold process_translation
    rcases hval : AudioFileValidator.validate cfg f with ⟨bv, em⟩
    rw [hval] at hv
    cases bv with
    | false => simp at hv
    | true =>
      dsimp only
      rw [retryCall_exhaust b.transcribe e0 e1 e2 h0 r0 h1 r1 h2 r2]
      rfl
  · intro cfg b f tr e0 e1 e2 hv ht hlen h0 r0 h1 r1 h2 r2
    unfold process_translation
    rcases hval : AudioFileValidator.validate cfg f with ⟨bv, em⟩
    rw [hval] at hv
    cases bv with
    | false => simp at hv
    | true =>
      dsimp only
      rw [ht]
      dsimp only
      rcases hl : TranslationValidator.validate_text_length cfg
          (pyStrip tr.text) with ⟨bl, eml⟩
      rw [hl] at hlen
      cases bl with
      | false => simp at hlen
      | true =>
        dsimp only
        rw [vld_normalized]
        dsimp only
        rw [retryCall_exhaust b.translate e0 e1 e2 h0 r0 h1 r1 h2 r2]
        rfl
  · intro cfg b f tr t e0 e1 e2 hv ht hlen htr hq h0 r0 h1 r1 h2 r2
    unfold process_translation
    rcases hval : AudioFileValidator.validate cfg f with ⟨bv, em⟩
    rw [hval] at hv
    cases bv with
    | false => simp at hv
    | true =>
      dsimp only
      rw [ht]
      dsimp only
      rcases hl : TranslationValidator.validate_text_length cfg
          (pyStrip tr.text) with ⟨bl, eml⟩
      rw [hl] at hlen
      cases bl with
      | false => simp at hlen
      | true =>
        dsimp only
        rw [vld_normalized]
        dsimp only
        rw [htr]
        dsimp only
        rcases hg : TranslationValidator.check_hallucination cfg
            (pyStrip tr.text) t (normalize_detected tr.language) with ⟨bq, rq⟩
        rw [hg] at hq
        cases bq with
        | true => simp at hq
        | false =>
          dsimp only
          rw [retryCall_exhaust b.synthesize e0 e1 e2 h0 r0 h1 r1 h2 r2]
          rfl

/-- Witness for C4 amended, transcription case: three connection failures
yield the generic opaque failure. -/
theorem claim_C4_amended_witness :
    process_translation {}
      ⟨fun _ => Except.error (PyError.connectionErr "reset"),
        fun _ => Except.ok "x", fun _ => Except.ok [2]⟩
      ⟨"voice.wav", "audio/wav", [5, 6]⟩ =
      { success := false,
        error_message := some "Unexpected error. Please try again." } :=
  claim_C4_amended.1 {} _ _ _ _ _ rfl rfl rfl rfl rfl rfl rfl

/-- C2: a transcript whose trimmed length lies in `[1, MIN_TEXT_LENGTH)`
makes the pipeline fail with `requires_retry = true`, preserving the
normalized detected language and the stripped original text. -/
theorem claim_C2 (cfg : TranslationConfig) (b : RemoteBehavior)
    (f : AudioFile) (tr : TranscriptionObj)
    (hv : (AudioFileValidator.validate cfg f).1 = true)
    (ht : retryCall b.transcribe = Except.ok tr)
    (hlow : 1 ≤ (pyStrip tr.text).length)
    (hhigh : (pyStrip tr.text).length < cfg.MIN_TEXT_LENGTH) :
    process_translation cfg b f =
      { success := false,
        error_message :=
          some "Text too short or empty. Please speak clearly.",
        detected_language := some (normalize_detected tr.language),
        original_text := some (pyStrip tr.text),
        requires_retry := true } := by
  have hfail : TranslationValidator.validate_text_length cfg
      (pyStrip tr.text) = (false, some "Text too short or empty") := by
    unfold TranslationValidator.validate_text_length
    rw [if_pos (Or.inr (lt_of_le_of_lt (pyStrip_length_le _) hhigh))]
  unfold process_translation
  rcases hval : AudioFileValidator.validate cfg f with ⟨bv, em⟩
  rw [hval] at hv
  cases bv with
  | false => simp at hv
  | true =>
    dsimp only
    rw [ht]
    dsimp only
    rw [hfail]
    rfl

/-- Witness for C2 with the transcript "Hi" of trimmed length 2. -/
theorem claim_C2_witness :
    process_translation {}
      ⟨fun _ => Except.ok ⟨"Hi", "english"⟩, fun _ => Except.ok "Ciao",
        fun _ => Except.ok []⟩
      ⟨"clip2.mp3", "audio/mpeg", [1]⟩ =
      { success := false,
        error_message :=
          some "Text too short or empty. Please speak clearly.",
        detected_language := some "en",
        original_text := some "Hi",
        requires_retry := true } :=
  claim_C2 {} _ _ ⟨"Hi", "english"⟩ rfl rfl (by decide) (by decide)

/-- Translated text consisting of eight repetitions of one word. -/
def repeatedWord8 : String := "word word word word word word word word"

lemma ratioCheck_c7 :
    ratioCheck {} "Please translate this" repeatedWord8 = none := by
  unfold ratioCheck
  rw [show (pyStrip repeatedWord8).length = 39 from rfl,
    show (pyStrip "Please translate this").length = 21 from rfl,
    show ({} : TranslationConfig).max_length_ratio = 3 from rfl,
    show ({} : TranslationConfig).min_length_ratio = 3/10 from rfl]
  rw [if_pos (by norm_num), if_neg (by norm_num), if_neg (by norm_num)]

/-- C7: with the earlier checks passing, the hallucination gate flags
exactly the translations with more than 5 whitespace tokens whose fraction
of distinct overlapping 3-token windows is below 0.7; eight repetitions of
one word give 6 windows, at most 1 distinct, and are flagged with the
repetition reason. -/
theorem claim_C7 :
    (∀ (cfg : TranslationConfig) (o t d : String),
      ratioCheck cfg o t = none →
      keywordCheck cfg t = none →
      identicalCheck o t = none →
      (TranslationValidator.check_hallucination cfg o t d =
          (true, some "Excessive repetition detected") ↔
        5 < (pySplitWs t).length ∧
          10 * numDistinct (trigramsOf (pySplitWs t)) <
            7 * (trigramsOf (pySplitWs t)).length)) ∧
    ((trigramsOf (pySplitWs repeatedWord8)).length = 6 ∧
      numDistinct (trigramsOf (pySplitWs repeatedWord8)) ≤ 1 ∧
      TranslationValidator.check_hallucination {} "Please translate this"
        repeatedWord8 "en" =
        (true, some "Excessive repetition detected")) := by
  constructor
  · intro cfg o t d h1 h2 h3
    unfold TranslationValidator.check_hallucination
    rw [h1, h2, h3]
    unfold repetitionCheck
    by_cases hlen : 5 < (pySplitWs t).length
    · rw [if_pos hlen]
      by_cases hrat : 10 * numDistinct (trigramsOf (pySplitWs t)) <
          7 * (trigramsOf (pySplitWs t)).length
      · rw [if_pos hrat]
        exact iff_of_true rfl ⟨hlen, hrat⟩
      · rw [if_neg hrat]
        exact iff_of_false (by simp) (fun hc => hrat hc.2)
    · rw [if_neg hlen]
      exact iff_of_false (by simp) (fun hc => hlen hc.1)
  · refine ⟨rfl, by decide, ?_⟩
    unfold TranslationValidator.check_hallucination
    rw [ratioCheck_c7]
    rfl

/-- Witness for C7: the characterization applied at the concrete repeated
translation. -/
theorem claim_C7_witness :
    TranslationValidator.check_hallucination {} "Please translate this"
      repeatedWord8 "en" = (true, some "Excessive repetition detected") :=
  (claim_C7.1 {} "Please translate this" repeatedWord8 "en" ratioCheck_c7
    rfl rfl).2 ⟨by decide, by decide⟩

/-- The Scenario A transcript. -/
def scenarioTranscript : String :=
  "Hello, my name is Mira. I would like to order a pizza..."

/-- C1 (Scenario A): valid audio, transcription succeeds with the scenario
transcript and raw label "english", translation succeeds and passes the
quality gate, synthesis succeeds; the pipeline returns success with the
detected language normalized to "en" and the target language display name
"Italian". -/
theorem claim_C1 (b : RemoteBehavior) (f : AudioFile) (t : String)
    (bs : List Nat)
    (hv : (AudioFileValidator.validate {} f).1 = true)
    (ht : retryCall b.transcribe =
      Except.ok ⟨scenarioTranscript, "english"⟩)
    (htr : retryCall b.translate = Except.ok t)
    (hq : (TranslationValidator.check_hallucination {}
      (pyStrip scenarioTranscript) t "en").1 = false)
    (hs : retryCall b.synthesize = Except.ok bs) :
    (process_translation {} b f).success = true ∧
    (process_translation {} b f).detected_language = some "en" ∧
    (process_translation {} b f).target_language = some "Italian" := by
  have hres : process_translation {} b f =
      { success := true, audio_bytes := some bs,
        original_text := some (pyStrip scenarioTranscript),
        translated_text := some t,
        detected_language := some "en",
        target_language := some "Italian" } := by
    unfold process_translation
    rcases hval : AudioFileValidator.validate {} f with ⟨bv, em⟩
    rw [hval] at hv
    cases bv with
    | false => simp at hv
    | true =>
      dsimp only
      rw [ht]
      dsimp only
      rw [show TranslationValidator.validate_text_length {}
        (pyStrip scenarioTranscript) = (true, none) from rfl]
      dsimp only
      rw [show TranslationValidator.validate_language_detection {}
        (normalize_detected "english") none = (true, none) from rfl]
      dsimp only
      rw [htr]
      dsimp only
      have hq' : (TranslationValidator.check_hallucination {}
          (pyStrip scenarioTranscript) t
          (normalize_detected "english")).1 = false := hq
      rcases hg : TranslationValidator.check_hallucination {}
          (pyStrip scenarioTranscript) t (normalize_detected "english")
        with ⟨bq, rq⟩
      rw [hg] at hq'
      cases bq with
      | true => simp at hq'
      | false =>
        dsimp only
        rw [hs]
        rfl
  rw [hres]
  exact ⟨rfl, rfl, rfl⟩

/-- The Scenario A translation used by the witness. -/
def scenarioTranslation : String :=
  "Ciao, mi chiamo Mira. Vorrei ordinare una pizza con funghi e formaggio."

lemma ratioCheck_c1 :
    ratioCheck {} (pyStrip scenarioTranscript) scenarioTranslation =
      none := by
  unfold ratioCheck
  rw [show (pyStrip scenarioTranslation).length = 71 from rfl,
    show (pyStrip (pyStrip scenarioTranscript)).length = 56 from rfl,
    show ({} : TranslationConfig).max_length_ratio = 3 from rfl,
    show ({} : TranslationConfig).min_length_ratio = 3/10 from rfl]
  rw [if_pos (by norm_num), if_neg (by norm_num), if_neg (by norm_num)]

lemma gate_pass_c1 :
    (TranslationValidator.check_hallucination {}
      (pyStrip scenarioTranscript) scenarioTranslation "en").1 = false := by
  unfold TranslationValidator.check_hallucination
  rw [ratioCheck_c1]
  rfl

/-- Witness for C1 with an entirely concrete behaviour and file. -/
theorem claim_C1_witness :
    (process_translation {}
      ⟨fun _ => Except.ok ⟨scenarioTranscript, "english"⟩,
        fun _ => Except.ok scenarioTranslation,
        fun _ => Except.ok [1, 2, 3]⟩
      ⟨"voice.mp3", "audio/mpeg", [0, 1]⟩).success = true ∧
    (process_translation {}
      ⟨fun _ => Except.ok ⟨scenarioTranscript, "english"⟩,
        fun _ => Except.ok scenarioTranslation,
        fun _ => Except.ok [1, 2, 3]⟩
      ⟨"voice.mp3", "audio/mpeg", [0, 1]⟩).detected_language = some "en" ∧
    (process_translation {}
      ⟨fun _ => Except.ok ⟨scenarioTranscript, "english"⟩,
        fun _ => Except.ok scenarioTranslation,
        fun _ => Except.ok [1, 2, 3]⟩
      ⟨"voice.mp3", "audio/mpeg", [0, 1]⟩).target_language =
        some "Italian" :=
  claim_C1 _ _ scenarioTranslation [1, 2, 3] rfl rfl rfl gate_pass_c1 rfl

/-- C8: for every configuration, every remote behaviour and every input
file, a failed outcome carries no audio bytes. -/
theorem claim_C8 (cfg : TranslationConfig) (b : RemoteBehavior)
    (f : AudioFile)
    (h : (process_translation cfg b f).success = false) :
    (process_translation cfg b f).audio_bytes = none := by
  revert h
  unfold process_translation
  split
  · intro _; rfl
  · split
    · intro _; exact pipelineErrResult_audio _
    · split
      · intro _; rfl
      · split
        · intro _; rfl
        · split
          · intro _; exact pipelineErrResult_audio _
          · split
            · intro _; rfl
            · split
              · intro _; exact pipelineErrResult_audio _
              · intro hx; exact absurd hx (by simp)

/-- Witness for C8 at a run that fails validation (missing filename). -/
theorem claim_C8_witness :
    (process_translation {}
      ⟨fun _ => Except.ok ⟨"Test message for translation", "english"⟩,
        fun _ => Except.ok "x", fun _ => Except.ok [9]⟩
      ⟨"", "audio/mpeg", [0]⟩).audio_bytes = none :=
  claim_C8 {} _ _ rfl

/-- The shapes of every error message the pipeline can emit: each failure
branch of `process_translation` produces a message carrying one of these
fixed prefixes. The unsupported-language branch is absent: it is
unreachable. -/
def pipelineMsgShape (m : String) : Prop :=
  (∃ s, m = "No audio file provided" ++ s) ∨
  (∃ s, m = "Unsupported format: " ++ s) ∨
  (∃ s, m = "File too large: " ++ s) ∨
  (∃ s, m = "Audio file is empty" ++ s) ∨
  (∃ s, m = "Invalid extension: " ++ s) ∨
  (∃ s, m = "Text too short or empty" ++ s) ∨
  (∃ s, m = "Text exceeds maximum length of " ++ s) ∨
  (∃ s, m = "Quality issue: " ++ s) ∨
  (∃ s, m = "Service error: " ++ s) ∨
  (∃ s, m = "Unexpected error. Please try again." ++ s)

lemma validate_cases (cfg : TranslationConfig) (f : AudioFile) :
    AudioFileValidator.validate cfg f = (true, none) ∨
    ∃ m, AudioFileValidator.validate cfg f = (false, some m) ∧
      pipelineMsgShape m := by
  unfold AudioFileValidator.validate
  split_ifs with h1 h2 h3 h4 h5
  · exact Or.inr ⟨_, rfl, Or.inl ⟨"", rfl⟩⟩
  · exact Or.inr ⟨_, rfl, Or.inr (Or.inr (Or.inl
      ⟨_, String.append_assoc _ _ _⟩))⟩
  · exact Or.inr ⟨_, rfl, Or.inr (Or.inr (Or.inr (Or.inl ⟨"", rfl⟩)))⟩
  · exact Or.inl rfl
  · exact Or.inr ⟨_, rfl, Or.inr (Or.inr (Or.inr (Or.inr (Or.inl
      ⟨_, rfl⟩))))⟩
  · exact Or.inr ⟨_, rfl, Or.inr (Or.inl ⟨f.content_type, rfl⟩)⟩

lemma vtl_cases (cfg : TranslationConfig) (t : String) :
    TranslationValidator.validate_text_length cfg t = (true, none) ∨
    TranslationValidator.validate_text_length cfg t =
      (false, some "Text too short or empty") ∨
    TranslationValidator.validate_text_length cfg t =
      (false, some ("Text exceeds maximum length of " ++
        toString cfg.MAX_TEXT_LENGTH ++ " characters")) := by
  unfold TranslationValidator.validate_text_length
  split_ifs
  · exact Or.inr (Or.inl rfl)
  · exact Or.inr (Or.inr rfl)
  · exact Or.inl rfl

lemma gate_cases (cfg : TranslationConfig) (o t d : String) :
    TranslationValidator.check_hallucination cfg o t d = (false, none) ∨
    ∃ r, TranslationValidator.check_hallucination cfg o t d =
      (true, some r) := by
  unfold TranslationValidator.check_hallucination
  cases ratioCheck cfg o t
  · cases keywordCheck cfg t
    · cases identicalCheck o t
      · cases repetitionCheck t
        · exact Or.inl rfl
        · exact Or.inr ⟨_, rfl⟩
      · exact Or.inr ⟨_, rfl⟩
    · exact Or.inr ⟨_, rfl⟩
  · exact Or.inr ⟨_, rfl⟩

lemma pipelineErrResult_shape (e : PyError) (m : String)
    (h : (pipelineErrResult e).error_message = some m) :
    pipelineMsgShape m := by
  cases e with
  | openAIErr k msg =>
    have hm : "Service error: " ++ msg = m := Option.some.inj h
    exact Or.inr (Or.inr (Or.inr (Or.inr (Or.inr (Or.inr (Or.inr (Or.inr
      (Or.inl ⟨msg, hm.symm⟩))))))))
  | connectionErr msg =>
    have hm : "Unexpected error. Please try again." = m := Option.some.inj h
    exact Or.inr (Or.inr (Or.inr (Or.inr (Or.inr (Or.inr (Or.inr (Or.inr
      (Or.inr ⟨"", hm.symm⟩))))))))
  | retryErr e1 =>
    have hm : "Unexpected error. Please try again." = m := Option.some.inj h
    exact Or.inr (Or.inr (Or.inr (Or.inr (Or.inr (Or.inr (Or.inr (Or.inr
      (Or.inr ⟨"", hm.symm⟩))))))))
  | otherErr msg =>
    have hm : "Unexpected error. Please try again." = m := Option.some.inj h
    exact Or.inr (Or.inr (Or.inr (Or.inr (Or.inr (Or.inr (Or.inr (Or.inr
      (Or.inr ⟨"", hm.symm⟩))))))))

lemma pipeline_message_shape (cfg : TranslationConfig) (b : RemoteBehavior)
    (f : AudioFile) (m : String)
    (h : (process_translation cfg b f).error_message = some m) :
    pipelineMsgShape m := by
  unfold process_translation at h
  rcases validate_cases cfg f with hv | ⟨m0, hv, hsh⟩
  · rw [hv] at h
    dsimp only at h
    rcases he : retryCall b.transcribe with e | tr
    · rw [he] at h
      exact pipelineErrResult_shape e m h
    · rw [he] at h
      dsimp only at h
      rcases vtl_cases cfg (pyStrip tr.text) with h1 | h1 | h1
      · rw [h1] at h
        dsimp only at h
        rw [vld_normalized cfg tr.language] at h
        dsimp only at h
        rcases he2 : retryCall b.translate with e | t
        · rw [he2] at h
          exact pipelineErrResult_shape e m h
        · rw [he2] at h
          dsimp only at h
          rcases gate_cases cfg (pyStrip tr.text) t
              (normalize_detected tr.language) with hg | ⟨r, hg⟩
          · rw [hg] at h
            dsimp only at h
            rcases he3 : retryCall b.synthesize with e | bs
            · rw [he3] at h
              exact pipelineErrResult_shape e m h
            · rw [he3] at h
              dsimp only at h
              exact absurd h (by simp)
          · rw [hg] at h
            dsimp only [optStr] at h
            have hm : "Quality issue: " ++ r ++ ". Try again." = m :=
              Option.some.inj h
            refine Or.inr (Or.inr (Or.inr (Or.inr (Or.inr (Or.inr (Or.inr
              (Or.inl ⟨r ++ ". Try again.", ?_⟩)))))))
            rw [← hm, String.append_assoc]
      · rw [h1] at h
        dsimp only [optStr] at h
        have hm : "Text too short or empty" ++ ". Please speak clearly." =
            m := Option.some.inj h
        exact Or.inr (Or.inr (Or.inr (Or.inr (Or.inr (Or.inl
          ⟨". Please speak clearly.", hm.symm⟩)))))
      · rw [h1] at h
        dsimp only [optStr] at h
        have hm : "Text exceeds maximum length of " ++
            toString cfg.MAX_TEXT_LENGTH ++ " characters" ++
            ". Please speak clearly." = m := Option.some.inj h
        refine Or.inr (Or.inr (Or.inr (Or.inr (Or.inr (Or.inr (Or.inl
          ⟨toString cfg.MAX_TEXT_LENGTH ++ (" characters" ++
            ". Please speak clearly."), ?_⟩))))))
        rw [← hm, String.append_assoc, String.append_assoc]
  · rw [hv] at h
    dsimp only at h
    obtain rfl : m0 = m := Option.some.inj h
    exact hsh

/-- C9: the unsupported-language failure branch is unreachable — the
normalized detected language always passes `validate_language_detection`,
and the pipeline never emits an unsupported-language error message. -/
theorem claim_C9 :
    (∀ (cfg : TranslationConfig) (label : String),
      TranslationValidator.validate_language_detection cfg
        (normalize_detected label) none = (true, none)) ∧
    (∀ (cfg : TranslationConfig) (b : RemoteBehavior) (f : AudioFile)
      (s : String),
      (process_translation cfg b f).error_message ≠
        some ("Unsupported language detected: " ++ s)) := by
  refine ⟨vld_normalized, ?_⟩
  intro cfg b f s h
  have hm := pipeline_message_shape cfg b f _ h
  rcases hm with ⟨s1, he⟩ | ⟨s1, he⟩ | ⟨s1, he⟩ | ⟨s1, he⟩ | ⟨s1, he⟩ |
    ⟨s1, he⟩ | ⟨s1, he⟩ | ⟨s1, he⟩ | ⟨s1, he⟩ | ⟨s1, he⟩
  · exact str_concat_ne_concat _ s _ s1 1 (by decide) (by decide)
      (by decide) he
  · exact str_concat_ne_concat _ s _ s1 13 (by decide) (by decide)
      (by decide) he
  · exact str_concat_ne_concat _ s _ s1 1 (by decide) (by decide)
      (by decide) he
  · exact str_concat_ne_concat _ s _ s1 1 (by decide) (by decide)
      (by decide) he
  · exact str_concat_ne_concat _ s _ s1 1 (by decide) (by decide)
      (by decide) he
  · exact str_concat_ne_concat _ s _ s1 1 (by decide) (by decide)
      (by decide) he
  · exact str_concat_ne_concat _ s _ s1 1 (by decide) (by decide)
      (by decide) he
  · exact str_concat_ne_concat _ s _ s1 1 (by decide) (by decide)
      (by decide) he
  · exact str_concat_ne_concat _ s _ s1 1 (by decide) (by decide)
      (by decide) he
  · exact str_concat_ne_concat _ s _ s1 3 (by decide) (by decide)
      (by decide) he

/-- Witness for C9: a run whose raw label is unsupported still never
produces an unsupported-language outcome. -/
theorem claim_C9_witness :
    TranslationValidator.validate_language_detection {}
      (normalize_detected "russian") none = (true, none) ∧
    (process_translation {}
      ⟨fun _ => Except.ok ⟨"Privet mir kak dela", "russian"⟩,
        fun _ => Except.ok "Hello world", fun _ => Except.ok [3]⟩
      ⟨"r.mp3", "audio/mpeg", [1]⟩).error_message ≠
      some ("Unsupported language detected: " ++ "ru") :=
  ⟨claim_C9.1 {} "russian", claim_C9.2 {} _ _ "ru"⟩

/-- C10: with no confidence value passed — as in the pipeline, which calls
`validate_language_detection` with its `confidence` default of `None` —
the low-confidence branch cannot fire for any configuration, and no
pipeline outcome ever carries a low-confidence error message. -/
theorem claim_C10 :
    (∀ (cfg : TranslationConfig) (lang : String),
      TranslationValidator.validate_language_detection cfg lang none =
        (true, none) ∨
      TranslationValidator.validate_language_detection cfg lang none =
        (false, some ("Unsupported language detected: " ++ lang))) ∧
    (∀ (cfg : TranslationConfig) (b : RemoteBehavior) (f : AudioFile)
      (s : String),
      (process_translation cfg b f).error_message ≠
        some ("Low confidence: " ++ s)) := by
  constructor
  · intro cfg lang
    unfold TranslationValidator.validate_language_detection
    split_ifs
    · exact Or.inl rfl
    · exact Or.inr rfl
  · intro cfg b f s h
    have hm := pipeline_message_shape cfg b f _ h
    rcases hm with ⟨s1, he⟩ | ⟨s1, he⟩ | ⟨s1, he⟩ | ⟨s1, he⟩ | ⟨s1, he⟩ |
      ⟨s1, he⟩ | ⟨s1, he⟩ | ⟨s1, he⟩ | ⟨s1, he⟩ | ⟨s1, he⟩ <;>
      exact str_concat_ne_concat _ s _ s1 1 (by decide) (by decide)
        (by decide) he

/-- Witness for C10 at a concrete configuration and run. -/
theorem claim_C10_witness :
    (TranslationValidator.validate_language_detection {} "ru" none =
        (true, none) ∨
      TranslationValidator.validate_language_detection {} "ru" none =
        (false, some ("Unsupported language detected: " ++ "ru"))) ∧
    (process_translation {}
      ⟨fun _ => Except.ok ⟨"Test message for translation", "english"⟩,
        fun _ => Except.ok "Messaggio di prova", fun _ => Except.ok [4]⟩
      ⟨"m.mp3", "audio/mpeg", [2]⟩).error_message ≠
      some ("Low confidence: " ++ "0.50") :=
  ⟨claim_C10.1 {} "ru", claim_C10.2 {} _ _ "0.50"⟩
